import Mathlib

/-!
Shallow embedding of the course-enrollment service
(`src/app/services/*.py`, `src/app/repositories/*.py`, `src/app/models.py`).

The Python code is a layered CRUD application over four SQLAlchemy tables
(students, courses, enrollments, grades).  We embed the durable state as a
`Store` of four lists plus the auto-increment counters, each repository
function as a pure function on `Store` (SQLAlchemy's `.first()` becomes
`List.find?`), and each service function as a function returning the
result, the post-state, and the trace of repository calls it performed
(the trace makes "no lookup happened" claims statable).

Error mapping: the services raise `HTTPException(status_code, detail)`.
Following the spec's taxonomy we map status 404 to `NotFound`, the
marks-range 400 to `InvalidRange`, the uniqueness 400s to `DuplicateKey`,
and 500 to `StorageFailure`, always keeping the exact `detail` string
from the source.

Python `float` marks are embedded as `ℚ`: every comparison the source
performs on marks (`<`, `>`, `>=` against the integer constants 0, 60,
70, 80, 90, 100) is exact on the decimal literals the spec discusses, so
the rational embedding agrees with IEEE double evaluation on them.
-/

namespace CourseEnrollment

/-- Error taxonomy of the service layer (spec §7), carrying the
`detail` string of the `HTTPException` raised by the source. -/
inductive ApiError where
  | NotFound (detail : String)
  | DuplicateKey (detail : String)
  | InvalidRange (detail : String)
  | StorageFailure (detail : String)
deriving DecidableEq, Repr

/-- `app/models.py` `Student`: id, name, email. -/
structure Student where
  id : Nat
  name : String
  email : String
deriving DecidableEq, Repr

/-- `app/models.py` `Course`: id, course_name, course_code, credits. -/
structure Course where
  id : Nat
  course_name : String
  course_code : String
  credits : Int
deriving DecidableEq, Repr

/-- `app/models.py` `Enrollment`: id, student_id, course_id,
enrollment_date (dates are opaque here; embedded as `Int`). -/
structure Enrollment where
  id : Nat
  student_id : Nat
  course_id : Nat
  enrollment_date : Int
deriving DecidableEq, Repr

/-- `app/models.py` `Grade`: id, enrollment_id, marks (float, embedded
as `ℚ`), final_grade (nullable string column). -/
structure Grade where
  id : Nat
  enrollment_id : Nat
  marks : ℚ
  final_grade : Option String
deriving DecidableEq, Repr

/-- `app/schemas.py` `StudentCreate`. -/
structure StudentCreate where
  name : String
  email : String
deriving DecidableEq, Repr

/-- `app/schemas.py` `CourseCreate`. -/
structure CourseCreate where
  course_name : String
  course_code : String
  credits : Int
deriving DecidableEq, Repr

/-- `app/schemas.py` `EnrollmentCreate`. -/
structure EnrollmentCreate where
  student_id : Nat
  course_id : Nat
  enrollment_date : Int
deriving DecidableEq, Repr

/-- `app/schemas.py` `GradeCreate` (`final_grade` is optional and
defaults to `None`). -/
structure GradeCreate where
  enrollment_id : Nat
  marks : ℚ
  final_grade : Option String
deriving DecidableEq, Repr

/-- The durable state: the four tables of `app/models.py` plus the
auto-increment counter of each primary key. -/
structure Store where
  students : List Student
  courses : List Course
  enrollments : List Enrollment
  grades : List Grade
  nextStudentId : Nat
  nextCourseId : Nat
  nextEnrollmentId : Nat
  nextGradeId : Nat
deriving DecidableEq, Repr

/-- The empty database (fresh schema, counters at 1 as SQLite assigns). -/
def Store.empty : Store :=
  ⟨[], [], [], [], 1, 1, 1, 1⟩

/-- One repository call, for stating "this lookup/write did (not)
happen".  Each constructor is one function of the repository layer. -/
inductive RepoEvent where
  | readStudentById (student_id : Nat)
  | readStudentByEmail (email : String)
  | readCourseById (course_id : Nat)
  | readCourseByCode (course_code : String)
  | readEnrollmentById (enrollment_id : Nat)
  | readEnrollmentByPair (student_id course_id : Nat)
  | readGradeById (grade_id : Nat)
  | readGradeByEnrollment (enrollment_id : Nat)
  | write
deriving DecidableEq, Repr

namespace Repo

/-- `students_repository.get_student_by_id`. -/
def get_student_by_id (db : Store) (student_id : Nat) : Option Student :=
  db.students.find? (fun s => s.id == student_id)

/-- `students_repository.get_student_by_email`. -/
def get_student_by_email (db : Store) (email : String) : Option Student :=
  db.students.find? (fun s => s.email == email)

/-- `students_repository.create_student`: insert with generated id. -/
def create_student (db : Store) (s : StudentCreate) : Student × Store :=
  let st : Student := ⟨db.nextStudentId, s.name, s.email⟩
  (st, { db with students := db.students ++ [st],
                 nextStudentId := db.nextStudentId + 1 })

/-- `students_repository.update_student`: locate by id, overwrite name
and email in place. -/
def update_student (db : Store) (student_id : Nat) (s : StudentCreate) :
    Option Student × Store :=
  match db.students.find? (fun t => t.id == student_id) with
  | some t =>
      let t' : Student := ⟨t.id, s.name, s.email⟩
      (some t',
       { db with students :=
           db.students.map (fun u => if u.id == student_id then t' else u) })
  | none => (none, db)

/-- `students_repository.delete_student`: locate by id, remove, return
whether a row was found. -/
def delete_student (db : Store) (student_id : Nat) : Bool × Store :=
  match db.students.find? (fun t => t.id == student_id) with
  | some _ =>
      (true, { db with students :=
                 db.students.eraseP (fun t => t.id == student_id) })
  | none => (false, db)

/-- `courses_repository.get_course_by_id`. -/
def get_course_by_id (db : Store) (course_id : Nat) : Option Course :=
  db.courses.find? (fun c => c.id == course_id)

/-- `courses_repository.get_course_by_code`. -/
def get_course_by_code (db : Store) (course_code : String) : Option Course :=
  db.courses.find? (fun c => c.course_code == course_code)

/-- `courses_repository.create_course`. -/
def create_course (db : Store) (c : CourseCreate) : Course × Store :=
  let co : Course := ⟨db.nextCourseId, c.course_name, c.course_code, c.credits⟩
  (co, { db with courses := db.courses ++ [co],
                 nextCourseId := db.nextCourseId + 1 })

/-- `courses_repository.update_course`. -/
def update_course (db : Store) (course_id : Nat) (c : CourseCreate) :
    Option Course × Store :=
  match db.courses.find? (fun t => t.id == course_id) with
  | some t =>
      let t' : Course := ⟨t.id, c.course_name, c.course_code, c.credits⟩
      (some t',
       { db with courses :=
           db.courses.map (fun u => if u.id == course_id then t' else u) })
  | none => (none, db)

/-- `courses_repository.delete_course`. -/
def delete_course (db : Store) (course_id : Nat) : Bool × Store :=
  match db.courses.find? (fun t => t.id == course_id) with
  | some _ =>
      (true, { db with courses :=
                 db.courses.eraseP (fun t => t.id == course_id) })
  | none => (false, db)

/-- `enrollments_repository.get_enrollment_by_id`. -/
def get_enrollment_by_id (db : Store) (enrollment_id : Nat) : Option Enrollment :=
  db.enrollments.find? (fun e => e.id == enrollment_id)

/-- `enrollments_repository.get_enrollment_by_student_and_course`. -/
def get_enrollment_by_student_and_course (db : Store)
    (student_id course_id : Nat) : Option Enrollment :=
  db.enrollments.find?
    (fun e => e.student_id == student_id && e.course_id == course_id)

/-- `enrollments_repository.create_enrollment`. -/
def create_enrollment (db : Store) (e : EnrollmentCreate) :
    Enrollment × Store :=
  let en : Enrollment :=
    ⟨db.nextEnrollmentId, e.student_id, e.course_id, e.enrollment_date⟩
  (en, { db with enrollments := db.enrollments ++ [en],
                 nextEnrollmentId := db.nextEnrollmentId + 1 })

/-- `enrollments_repository.delete_enrollment`. -/
def delete_enrollment (db : Store) (enrollment_id : Nat) : Bool × Store :=
  match db.enrollments.find? (fun t => t.id == enrollment_id) with
  | some _ =>
      (true, { db with enrollments :=
                 db.enrollments.eraseP (fun t => t.id == enrollment_id) })
  | none => (false, db)

/-- `grades_repository.get_grade_by_id`. -/
def get_grade_by_id (db : Store) (grade_id : Nat) : Option Grade :=
  db.grades.find? (fun g => g.id == grade_id)

/-- `grades_repository.get_grade_by_enrollment`. -/
def get_grade_by_enrollment (db : Store) (enrollment_id : Nat) : Option Grade :=
  db.grades.find? (fun g => g.enrollment_id == enrollment_id)

/-- `grades_repository.create_grade`: stores whatever `final_grade` the
`GradeCreate` carries (the service layer is what overwrites it). -/
def create_grade (db : Store) (g : GradeCreate) : Grade × Store :=
  let gr : Grade := ⟨db.nextGradeId, g.enrollment_id, g.marks, g.final_grade⟩
  (gr, { db with grades := db.grades ++ [gr],
                 nextGradeId := db.nextGradeId + 1 })

/-- `grades_repository.update_grade`: locate by id, overwrite marks and
final_grade. -/
def update_grade (db : Store) (grade_id : Nat) (marks : ℚ)
    (final_grade : String) : Option Grade × Store :=
  match db.grades.find? (fun t => t.id == grade_id) with
  | some t =>
      let t' : Grade := ⟨t.id, t.enrollment_id, marks, some final_grade⟩
      (some t',
       { db with grades :=
           db.grades.map (fun u => if u.id == grade_id then t' else u) })
  | none => (none, db)

/-- `grades_repository.delete_grade`. -/
def delete_grade (db : Store) (grade_id : Nat) : Bool × Store :=
  match db.grades.find? (fun t => t.id == grade_id) with
  | some _ =>
      (true, { db with grades :=
                 db.grades.eraseP (fun t => t.id == grade_id) })
  | none => (false, db)

end Repo

/-- `grades_service.calculate_final_grade`: the letter-grade derivation,
translated clause for clause from the `if`/`elif` cascade. -/
def calculate_final_grade (marks : ℚ) : String :=
  if marks ≥ 90 then "A"
  else if marks ≥ 80 then "B"
  else if marks ≥ 70 then "C"
  else if marks ≥ 60 then "D"
  else "F"

/-- Outcome of one service call: the value or raised error, the
post-state (the session the caller borrowed), and the ordered trace of
repository calls the service performed. -/
structure SvcOut (α : Type) where
  result : Except ApiError α
  store : Store
  trace : List RepoEvent
deriving Repr

namespace Service

/-- `students_service.create_student`: reject a duplicate email before
the insert. -/
def create_student (db : Store) (student : StudentCreate) : SvcOut Student :=
  match Repo.get_student_by_email db student.email with
  | some _ =>
      ⟨.error (.DuplicateKey "Email already registered"), db,
       [.readStudentByEmail student.email]⟩
  | none =>
      let (st, db') := Repo.create_student db student
      ⟨.ok st, db', [.readStudentByEmail student.email, .write]⟩

/-- `students_service.get_student_by_id`. -/
def get_student_by_id (db : Store) (student_id : Nat) : SvcOut Student :=
  match Repo.get_student_by_id db student_id with
  | none =>
      ⟨.error (.NotFound "Student not found"), db, [.readStudentById student_id]⟩
  | some st => ⟨.ok st, db, [.readStudentById student_id]⟩

/-- `students_service.update_student`: existence check, then the
different-student email collision check, then the write. -/
def update_student (db : Store) (student_id : Nat) (student : StudentCreate) :
    SvcOut Student :=
  match Repo.get_student_by_id db student_id with
  | none =>
      ⟨.error (.NotFound "Student not found"), db, [.readStudentById student_id]⟩
  | some _ =>
      match Repo.get_student_by_email db student.email with
      | some email_check =>
          if email_check.id ≠ student_id then
            ⟨.error (.DuplicateKey "Email already registered"), db,
             [.readStudentById student_id, .readStudentByEmail student.email]⟩
          else
            let (res, db') := Repo.update_student db student_id student
            match res with
            | some st =>
                ⟨.ok st, db',
                 [.readStudentById student_id, .readStudentByEmail student.email,
                  .write]⟩
            | none =>
                ⟨.error (.NotFound "Student not found"), db',
                 [.readStudentById student_id, .readStudentByEmail student.email,
                  .write]⟩
      | none =>
          let (res, db') := Repo.update_student db student_id student
          match res with
          | some st =>
              ⟨.ok st, db',
               [.readStudentById student_id, .readStudentByEmail student.email,
                .write]⟩
          | none =>
              ⟨.error (.NotFound "Student not found"), db',
               [.readStudentById student_id, .readStudentByEmail student.email,
                .write]⟩

/-- `students_service.delete_student`: existence check, then the
repository delete; a `False` from the repository surfaces as 500. -/
def delete_student (db : Store) (student_id : Nat) : SvcOut Unit :=
  match Repo.get_student_by_id db student_id with
  | none =>
      ⟨.error (.NotFound "Student not found"), db, [.readStudentById student_id]⟩
  | some _ =>
      let (success, db') := Repo.delete_student db student_id
      if success then
        ⟨.ok (), db', [.readStudentById student_id, .write]⟩
      else
        ⟨.error (.StorageFailure "Failed to delete student"), db',
         [.readStudentById student_id, .write]⟩

/-- `courses_service.create_course`. -/
def create_course (db : Store) (course : CourseCreate) : SvcOut Course :=
  match Repo.get_course_by_code db course.course_code with
  | some _ =>
      ⟨.error (.DuplicateKey "Course code already exists"), db,
       [.readCourseByCode course.course_code]⟩
  | none =>
      let (co, db') := Repo.create_course db course
      ⟨.ok co, db', [.readCourseByCode course.course_code, .write]⟩

/-- `courses_service.get_course_by_id`. -/
def get_course_by_id (db : Store) (course_id : Nat) : SvcOut Course :=
  match Repo.get_course_by_id db course_id with
  | none =>
      ⟨.error (.NotFound "Course not found"), db, [.readCourseById course_id]⟩
  | some co => ⟨.ok co, db, [.readCourseById course_id]⟩

/-- `courses_service.update_course`: mirrors `update_student` with the
course code as the uniqueness key. -/
def update_course (db : Store) (course_id : Nat) (course : CourseCreate) :
    SvcOut Course :=
  match Repo.get_course_by_id db course_id with
  | none =>
      ⟨.error (.NotFound "Course not found"), db, [.readCourseById course_id]⟩
  | some _ =>
      match Repo.get_course_by_code db course.course_code with
      | some code_check =>
          if code_check.id ≠ course_id then
            ⟨.error (.DuplicateKey "Course code already exists"), db,
             [.readCourseById course_id, .readCourseByCode course.course_code]⟩
          else
            let (res, db') := Repo.update_course db course_id course
            match res with
            | some co =>
                ⟨.ok co, db',
                 [.readCourseById course_id, .readCourseByCode course.course_code,
                  .write]⟩
            | none =>
                ⟨.error (.NotFound "Course not found"), db',
                 [.readCourseById course_id, .readCourseByCode course.course_code,
                  .write]⟩
      | none =>
          let (res, db') := Repo.update_course db course_id course
          match res with
          | some co =>
              ⟨.ok co, db',
               [.readCourseById course_id, .readCourseByCode course.course_code,
                .write]⟩
          | none =>
              ⟨.error (.NotFound "Course not found"), db',
               [.readCourseById course_id, .readCourseByCode course.course_code,
                .write]⟩

/-- `courses_service.delete_course`. -/
def delete_course (db : Store) (course_id : Nat) : SvcOut Unit :=
  match Repo.get_course_by_id db course_id with
  | none =>
      ⟨.error (.NotFound "Course not found"), db, [.readCourseById course_id]⟩
  | some _ =>
      let (success, db') := Repo.delete_course db course_id
      if success then
        ⟨.ok (), db', [.readCourseById course_id, .write]⟩
      else
        ⟨.error (.StorageFailure "Failed to delete course"), db',
         [.readCourseById course_id, .write]⟩

/-- `enrollments_service.create_enrollment`: student existence, then
course existence, then the duplicate-pair check, then the insert. -/
def create_enrollment (db : Store) (enrollment : EnrollmentCreate) :
    SvcOut Enrollment :=
  match Repo.get_student_by_id db enrollment.student_id with
  | none =>
      ⟨.error (.NotFound "Student not found"), db,
       [.readStudentById enrollment.student_id]⟩
  | some _ =>
      match Repo.get_course_by_id db enrollment.course_id with
      | none =>
          ⟨.error (.NotFound "Course not found"), db,
           [.readStudentById enrollment.student_id,
            .readCourseById enrollment.course_id]⟩
      | some _ =>
          match Repo.get_enrollment_by_student_and_course db
              enrollment.student_id enrollment.course_id with
          | some _ =>
              ⟨.error (.DuplicateKey "Student is already enrolled in this course"),
               db,
               [.readStudentById enrollment.student_id,
                .readCourseById enrollment.course_id,
                .readEnrollmentByPair enrollment.student_id enrollment.course_id]⟩
          | none =>
              let (en, db') := Repo.create_enrollment db enrollment
              ⟨.ok en, db',
               [.readStudentById enrollment.student_id,
                .readCourseById enrollment.course_id,
                .readEnrollmentByPair enrollment.student_id enrollment.course_id,
                .write]⟩

/-- `enrollments_service.get_enrollment_by_id`. -/
def get_enrollment_by_id (db : Store) (enrollment_id : Nat) :
    SvcOut Enrollment :=
  match Repo.get_enrollment_by_id db enrollment_id with
  | none =>
      ⟨.error (.NotFound "Enrollment not found"), db,
       [.readEnrollmentById enrollment_id]⟩
  | some en => ⟨.ok en, db, [.readEnrollmentById enrollment_id]⟩

/-- `enrollments_service.delete_enrollment`. -/
def delete_enrollment (db : Store) (enrollment_id : Nat) : SvcOut Unit :=
  match Repo.get_enrollment_by_id db enrollment_id with
  | none =>
      ⟨.error (.NotFound "Enrollment not found"), db,
       [.readEnrollmentById enrollment_id]⟩
  | some _ =>
      let (success, db') := Repo.delete_enrollment db enrollment_id
      if success then
        ⟨.ok (), db', [.readEnrollmentById enrollment_id, .write]⟩
      else
        ⟨.error (.StorageFailure "Failed to delete enrollment"), db',
         [.readEnrollmentById enrollment_id, .write]⟩

/-- `grades_service.create_grade`: range check first (before any
repository call), then enrollment existence, then the one-grade-per-
enrollment check, then the insert with the computed letter overwriting
whatever `final_grade` the caller supplied. -/
def create_grade (db : Store) (grade : GradeCreate) : SvcOut Grade :=
  if grade.marks < 0 ∨ grade.marks > 100 then
    ⟨.error (.InvalidRange "Marks must be between 0 and 100"), db, []⟩
  else
    match Repo.get_enrollment_by_id db grade.enrollment_id with
    | none =>
        ⟨.error (.NotFound "Enrollment not found"), db,
         [.readEnrollmentById grade.enrollment_id]⟩
    | some _ =>
        match Repo.get_grade_by_enrollment db grade.enrollment_id with
        | some _ =>
            ⟨.error (.DuplicateKey
               "Grade already exists for this enrollment. Use update instead."),
             db,
             [.readEnrollmentById grade.enrollment_id,
              .readGradeByEnrollment grade.enrollment_id]⟩
        | none =>
            let final_grade := calculate_final_grade grade.marks
            let grade_data : GradeCreate :=
              { grade with final_grade := some final_grade }
            let (gr, db') := Repo.create_grade db grade_data
            ⟨.ok gr, db',
             [.readEnrollmentById grade.enrollment_id,
              .readGradeByEnrollment grade.enrollment_id, .write]⟩

/-- `grades_service.get_grade_by_id`. -/
def get_grade_by_id (db : Store) (grade_id : Nat) : SvcOut Grade :=
  match Repo.get_grade_by_id db grade_id with
  | none =>
      ⟨.error (.NotFound "Grade not found"), db, [.readGradeById grade_id]⟩
  | some gr => ⟨.ok gr, db, [.readGradeById grade_id]⟩

/-- `grades_service.get_grade_by_enrollment`: enrollment existence
first, then the attached-grade lookup, with two distinct messages. -/
def get_grade_by_enrollment (db : Store) (enrollment_id : Nat) : SvcOut Grade :=
  match Repo.get_enrollment_by_id db enrollment_id with
  | none =>
      ⟨.error (.NotFound "Enrollment not found"), db,
       [.readEnrollmentById enrollment_id]⟩
  | some _ =>
      match Repo.get_grade_by_enrollment db enrollment_id with
      | none =>
          ⟨.error (.NotFound "Grade not found for this enrollment"), db,
           [.readEnrollmentById enrollment_id,
            .readGradeByEnrollment enrollment_id]⟩
      | some gr =>
          ⟨.ok gr, db,
           [.readEnrollmentById enrollment_id,
            .readGradeByEnrollment enrollment_id]⟩

/-- `grades_service.update_grade`: range check first, then grade
existence, then the write with the recomputed letter. -/
def update_grade (db : Store) (grade_id : Nat) (marks : ℚ) : SvcOut Grade :=
  if marks < 0 ∨ marks > 100 then
    ⟨.error (.InvalidRange "Marks must be between 0 and 100"), db, []⟩
  else
    match Repo.get_grade_by_id db grade_id with
    | none =>
        ⟨.error (.NotFound "Grade not found"), db, [.readGradeById grade_id]⟩
    | some _ =>
        let final_grade := calculate_final_grade marks
        let (res, db') := Repo.update_grade db grade_id marks final_grade
        match res with
        | some gr =>
            ⟨.ok gr, db', [.readGradeById grade_id, .write]⟩
        | none =>
            ⟨.error (.NotFound "Grade not found"), db',
             [.readGradeById grade_id, .write]⟩

/-- `grades_service.delete_grade`. -/
def delete_grade (db : Store) (grade_id : Nat) : SvcOut Unit :=
  match Repo.get_grade_by_id db grade_id with
  | none =>
      ⟨.error (.NotFound "Grade not found"), db, [.readGradeById grade_id]⟩
  | some _ =>
      let (success, db') := Repo.delete_grade db grade_id
      if success then
        ⟨.ok (), db', [.readGradeById grade_id, .write]⟩
      else
        ⟨.error (.StorageFailure "Failed to delete grade"), db',
         [.readGradeById grade_id, .write]⟩

end Service

/-- One API-level mutating operation (the router surface of the four
managers, reads omitted since they never change the store). -/
inductive Op where
  | createStudent (s : StudentCreate)
  | updateStudent (student_id : Nat) (s : StudentCreate)
  | deleteStudent (student_id : Nat)
  | createCourse (c : CourseCreate)
  | updateCourse (course_id : Nat) (c : CourseCreate)
  | deleteCourse (course_id : Nat)
  | createEnrollment (e : EnrollmentCreate)
  | deleteEnrollment (enrollment_id : Nat)
  | createGrade (g : GradeCreate)
  | updateGrade (grade_id : Nat) (marks : ℚ)
  | deleteGrade (grade_id : Nat)
deriving DecidableEq, Repr

/-- Run one operation: the raised error (if any) and the post-state. -/
def Op.run (op : Op) (db : Store) : Except ApiError Unit × Store :=
  match op with
  | .createStudent s =>
      let o := Service.create_student db s; (o.result.map (fun _ => ()), o.store)
  | .updateStudent i s =>
      let o := Service.update_student db i s; (o.result.map (fun _ => ()), o.store)
  | .deleteStudent i =>
      let o := Service.delete_student db i; (o.result.map (fun _ => ()), o.store)
  | .createCourse c =>
      let o := Service.create_course db c; (o.result.map (fun _ => ()), o.store)
  | .updateCourse i c =>
      let o := Service.update_course db i c; (o.result.map (fun _ => ()), o.store)
  | .deleteCourse i =>
      let o := Service.delete_course db i; (o.result.map (fun _ => ()), o.store)
  | .createEnrollment e =>
      let o := Service.create_enrollment db e; (o.result.map (fun _ => ()), o.store)
  | .deleteEnrollment i =>
      let o := Service.delete_enrollment db i; (o.result.map (fun _ => ()), o.store)
  | .createGrade g =>
      let o := Service.create_grade db g; (o.result.map (fun _ => ()), o.store)
  | .updateGrade i m =>
      let o := Service.update_grade db i m; (o.result.map (fun _ => ()), o.store)
  | .deleteGrade i =>
      let o := Service.delete_grade db i; (o.result.map (fun _ => ()), o.store)

/-- Stores reachable from a fresh schema by running API operations. -/
inductive Reachable : Store → Prop where
  | init : Reachable Store.empty
  | step (op : Op) (db : Store) : Reachable db → Reachable (op.run db).2

/-- The derived-field invariant: every stored grade's letter equals the
derivation applied to its stored marks. -/
def gradesConsistent (db : Store) : Prop :=
  ∀ g ∈ db.grades, g.final_grade = some (calculate_final_grade g.marks)

instance (db : Store) : Decidable (gradesConsistent db) :=
  List.decidableBAll _ db.grades

/-- Uniqueness of student emails in a store. -/
def emailsUnique (db : Store) : Prop :=
  ∀ s1 ∈ db.students, ∀ s2 ∈ db.students, s1.email = s2.email → s1 = s2

instance (db : Store) : Decidable (emailsUnique db) :=
  List.decidableBAll _ db.students

/-- Uniqueness of course codes in a store. -/
def codesUnique (db : Store) : Prop :=
  ∀ c1 ∈ db.courses, ∀ c2 ∈ db.courses, c1.course_code = c2.course_code → c1 = c2

instance (db : Store) : Decidable (codesUnique db) :=
  List.decidableBAll _ db.courses

/-- Whether a service outcome is the 500 "Failed to delete" branch. -/
def isStorageFailure {α : Type} (r : Except ApiError α) : Bool :=
  match r with
  | .error (.StorageFailure _) => true
  | _ => false

/-- Demo database, step 1: one student. -/
def demoStore1 : Store :=
  ((Op.createStudent ⟨"Ann", "ann@x.com"⟩).run Store.empty).2

/-- Demo database, step 2: add one course. -/
def demoStore2 : Store :=
  ((Op.createCourse ⟨"Algo", "CS101", 3⟩).run demoStore1).2

/-- Demo database, step 3: enroll student 1 in course 1. -/
def demoStore3 : Store :=
  ((Op.createEnrollment ⟨1, 1, 0⟩).run demoStore2).2

/-- Demo database, step 4: grade enrollment 1 with marks 85. -/
def demoStore4 : Store :=
  ((Op.createGrade ⟨1, 85, none⟩).run demoStore3).2

/-- Demo database, step 5: add a second student. -/
def demoStore5 : Store :=
  ((Op.createStudent ⟨"Bob", "bob@x.com"⟩).run demoStore4).2

/-- Demo database, step 6: add a second course. -/
def demoStore6 : Store :=
  ((Op.createCourse ⟨"Data", "CS102", 4⟩).run demoStore5).2

/-- Demo database, step 7: enroll student 2 in course 1 (this
enrollment, id 2, carries no grade). -/
def demoStore7 : Store :=
  ((Op.createEnrollment ⟨2, 1, 0⟩).run demoStore6).2

end CourseEnrollment

namespace CourseEnrollment

/-- C1: for every marks value in [0, 100] the letter-grade derivation
returns exactly the band of the spec's table with inclusive lower
bounds: A iff marks ≥ 90, B iff 80 ≤ marks < 90, C iff 70 ≤ marks < 80,
D iff 60 ≤ marks < 70, and F iff marks < 60. -/
theorem C1_letter_grade_bands (m : ℚ) (h0 : 0 ≤ m) (h1 : m ≤ 100) :
    (calculate_final_grade m = "A" ↔ 90 ≤ m) ∧
    (calculate_final_grade m = "B" ↔ 80 ≤ m ∧ m < 90) ∧
    (calculate_final_grade m = "C" ↔ 70 ≤ m ∧ m < 80) ∧
    (calculate_final_grade m = "D" ↔ 60 ≤ m ∧ m < 70) ∧
    (calculate_final_grade m = "F" ↔ m < 60) := by
  unfold calculate_final_grade
  split_ifs with hA hB hC hD <;>
    refine ⟨?_, ?_, ?_, ?_, ?_⟩ <;>
      simp_all <;> first | linarith | (intro; linarith)

/-- Witness for C1 at marks 89.99: in range, and graded "B". -/
theorem C1_letter_grade_bands_witness :
    (0 : ℚ) ≤ 8999/100 ∧ (8999/100 : ℚ) ≤ 100 ∧
      calculate_final_grade (8999/100) = "B" :=
  ⟨by norm_num, by norm_num,
   ((C1_letter_grade_bands (8999/100) (by norm_num) (by norm_num)).2.1).mpr
     ⟨by norm_num, by norm_num⟩⟩

/-- C2: when the student id of an enrollment-create request does not
resolve, the operation fails with NotFound "Student not found", leaves
the store unchanged, and its repository trace is exactly the one
student lookup: neither the course lookup nor the duplicate-enrollment
lookup is performed, whatever the course id is. -/
theorem C2_enrollment_create_short_circuit (db : Store) (e : EnrollmentCreate)
    (h : Repo.get_student_by_id db e.student_id = none) :
    (Service.create_enrollment db e).result =
        .error (.NotFound "Student not found") ∧
    (Service.create_enrollment db e).store = db ∧
    (Service.create_enrollment db e).trace = [.readStudentById e.student_id] := by
  unfold Service.create_enrollment
  rw [h]
  exact ⟨rfl, rfl, rfl⟩

/-- Witness for C2: on the empty store with both student id 5 and
course id 7 unknown, enrollment create reports the missing student and
performs only the student lookup. -/
theorem C2_enrollment_create_short_circuit_witness :
    Repo.get_student_by_id Store.empty 5 = none ∧
    (Service.create_enrollment Store.empty ⟨5, 7, 0⟩).result =
        .error (.NotFound "Student not found") ∧
    (Service.create_enrollment Store.empty ⟨5, 7, 0⟩).store = Store.empty ∧
    (Service.create_enrollment Store.empty ⟨5, 7, 0⟩).trace =
        [.readStudentById 5] :=
  ⟨rfl, C2_enrollment_create_short_circuit Store.empty ⟨5, 7, 0⟩ rfl⟩

/-- C4: a grade create or update whose marks fall outside [0, 100]
fails with InvalidRange, leaves the store unchanged, and performs no
repository call at all (empty trace): the range check precedes the
enrollment-existence check in create and the grade-existence check in
update. -/
theorem C4_marks_range_checked_first (db : Store) (g : GradeCreate)
    (grade_id : Nat) (marks : ℚ)
    (hc : g.marks < 0 ∨ g.marks > 100) (hu : marks < 0 ∨ marks > 100) :
    (Service.create_grade db g).result =
        .error (.InvalidRange "Marks must be between 0 and 100") ∧
    (Service.create_grade db g).store = db ∧
    (Service.create_grade db g).trace = [] ∧
    (Service.update_grade db grade_id marks).result =
        .error (.InvalidRange "Marks must be between 0 and 100") ∧
    (Service.update_grade db grade_id marks).store = db ∧
    (Service.update_grade db grade_id marks).trace = [] := by
  unfold Service.create_grade Service.update_grade
  rw [if_pos hc, if_pos hu]
  exact ⟨rfl, rfl, rfl, rfl, rfl, rfl⟩

/-- Witness for C4 at marks -0.01 (create) and 100.01 (update) on a
store that does contain enrollment 1 and grade 1, showing the range
error wins over any storage outcome. -/
theorem C4_marks_range_checked_first_witness :
    ((-1/100 : ℚ) < 0 ∨ (-1/100 : ℚ) > 100) ∧
    ((10001/100 : ℚ) < 0 ∨ (10001/100 : ℚ) > 100) ∧
    (Service.create_grade demoStore4 ⟨1, -1/100, none⟩).result =
        .error (.InvalidRange "Marks must be between 0 and 100") ∧
    (Service.create_grade demoStore4 ⟨1, -1/100, none⟩).trace = [] ∧
    (Service.update_grade demoStore4 1 (10001/100)).result =
        .error (.InvalidRange "Marks must be between 0 and 100") ∧
    (Service.update_grade demoStore4 1 (10001/100)).trace = [] := by
  have h := C4_marks_range_checked_first demoStore4 ⟨1, -1/100, none⟩ 1
    (10001/100) (Or.inl (by norm_num)) (Or.inr (by norm_num))
  exact ⟨Or.inl (by norm_num), Or.inr (by norm_num),
         h.1, h.2.2.1, h.2.2.2.1, h.2.2.2.2.2⟩

/-- C7: get_grade_by_enrollment distinguishes its two NotFound cases in
a fixed order — a missing enrollment id yields "Enrollment not found"
after only the enrollment lookup; an existing enrollment with no
attached grade yields the distinct "Grade not found for this
enrollment"; and an attached grade is returned. -/
theorem C7_get_by_enrollment_two_not_found (db : Store) (enrollment_id : Nat) :
    (Repo.get_enrollment_by_id db enrollment_id = none →
      (Service.get_grade_by_enrollment db enrollment_id).result =
          .error (.NotFound "Enrollment not found") ∧
      (Service.get_grade_by_enrollment db enrollment_id).trace =
          [.readEnrollmentById enrollment_id]) ∧
    (∀ en, Repo.get_enrollment_by_id db enrollment_id = some en →
      Repo.get_grade_by_enrollment db enrollment_id = none →
      (Service.get_grade_by_enrollment db enrollment_id).result =
          .error (.NotFound "Grade not found for this enrollment")) ∧
    (∀ en gr, Repo.get_enrollment_by_id db enrollment_id = some en →
      Repo.get_grade_by_enrollment db enrollment_id = some gr →
      (Service.get_grade_by_enrollment db enrollment_id).result = .ok gr) := by
  refine ⟨fun h => ?_, fun en h1 h2 => ?_, fun en gr h1 h2 => ?_⟩ <;>
    unfold Service.get_grade_by_enrollment
  · rw [h]; exact ⟨rfl, rfl⟩
  · rw [h1, h2]
  · rw [h1, h2]

/-- Witness for C7: in the demo store, enrollment 99 is missing
("Enrollment not found"), enrollment 2 exists with no grade ("Grade not
found for this enrollment"), and enrollment 1 has its grade returned. -/
theorem C7_get_by_enrollment_two_not_found_witness :
    (Service.get_grade_by_enrollment demoStore7 99).result =
        .error (.NotFound "Enrollment not found") ∧
    (Service.get_grade_by_enrollment demoStore7 2).result =
        .error (.NotFound "Grade not found for this enrollment") ∧
    (Service.get_grade_by_enrollment demoStore7 1).result =
        .ok ⟨1, 1, 85, some "B"⟩ := by
  refine ⟨((C7_get_by_enrollment_two_not_found demoStore7 99).1 (by decide)).1,
    (C7_get_by_enrollment_two_not_found demoStore7 2).2.1 ⟨2, 2, 1, 0⟩
      (by decide) (by decide),
    (C7_get_by_enrollment_two_not_found demoStore7 1).2.2 ⟨1, 1, 1, 0⟩
      ⟨1, 1, 85, some "B"⟩ (by decide) (by decide)⟩

/-- C10: the StorageFailure ("Failed to delete ...") branch of every
delete service is unreachable in the sequential model — whenever the
pre-delete existence check finds the record, the repository delete on
the same store finds it again and returns true, so no delete call ever
returns a StorageFailure, for any store and id. -/
theorem C10_delete_storage_failure_unreachable (db : Store)
    (student_id course_id enrollment_id grade_id : Nat) :
    isStorageFailure (Service.delete_student db student_id).result = false ∧
    isStorageFailure (Service.delete_course db course_id).result = false ∧
    isStorageFailure (Service.delete_enrollment db enrollment_id).result = false ∧
    isStorageFailure (Service.delete_grade db grade_id).result = false := by
  refine ⟨?_, ?_, ?_, ?_⟩
  · unfold Service.delete_student Repo.delete_student Repo.get_student_by_id
    split
    · rfl
    · next _ heq => simp [heq, isStorageFailure]
  · unfold Service.delete_course Repo.delete_course Repo.get_course_by_id
    split
    · rfl
    · next _ heq => simp [heq, isStorageFailure]
  · unfold Service.delete_enrollment Repo.delete_enrollment
      Repo.get_enrollment_by_id
    split
    · rfl
    · next _ heq => simp [heq, isStorageFailure]
  · unfold Service.delete_grade Repo.delete_grade Repo.get_grade_by_id
    split
    · rfl
    · next _ heq => simp [heq, isStorageFailure]

/-- C9: deletes touch only the targeted record — deleting an existing
student removes exactly that student row and leaves the enrollments
(including any referencing the deleted student), courses, and grades
tables unchanged; deleting an existing enrollment removes exactly that
enrollment row and leaves the grades (including any referencing it),
students, and courses tables unchanged.  Neither delete is rejected
when dependents exist. -/
theorem C9_delete_no_cascade (db : Store) (student_id enrollment_id : Nat)
    (st : Student) (hs : Repo.get_student_by_id db student_id = some st)
    (en : Enrollment)
    (he : Repo.get_enrollment_by_id db enrollment_id = some en) :
    (Service.delete_student db student_id).result = .ok () ∧
    (Service.delete_student db student_id).store.students =
        db.students.eraseP (fun t => t.id == student_id) ∧
    (Service.delete_student db student_id).store.enrollments = db.enrollments ∧
    (Service.delete_student db student_id).store.courses = db.courses ∧
    (Service.delete_student db student_id).store.grades = db.grades ∧
    (Service.delete_enrollment db enrollment_id).result = .ok () ∧
    (Service.delete_enrollment db enrollment_id).store.enrollments =
        db.enrollments.eraseP (fun t => t.id == enrollment_id) ∧
    (Service.delete_enrollment db enrollment_id).store.grades = db.grades ∧
    (Service.delete_enrollment db enrollment_id).store.students = db.students ∧
    (Service.delete_enrollment db enrollment_id).store.courses = db.courses := by
  unfold Repo.get_student_by_id at hs
  unfold Repo.get_enrollment_by_id at he
  unfold Service.delete_student Service.delete_enrollment
    Repo.delete_student Repo.delete_enrollment
    Repo.get_student_by_id Repo.get_enrollment_by_id
  rw [hs, he]
  exact ⟨rfl, rfl, rfl, rfl, rfl, rfl, rfl, rfl, rfl, rfl⟩

/-- Witness for C9 on the demo store: student 1 still has enrollments
and enrollment 1 still has a grade, yet both deletes succeed and leave
the dependent tables untouched. -/
theorem C9_delete_no_cascade_witness :
    Repo.get_student_by_id demoStore7 1 = some ⟨1, "Ann", "ann@x.com"⟩ ∧
    Repo.get_enrollment_by_id demoStore7 1 = some ⟨1, 1, 1, 0⟩ ∧
    (Service.delete_student demoStore7 1).result = .ok () ∧
    (Service.delete_student demoStore7 1).store.enrollments =
        demoStore7.enrollments ∧
    (Service.delete_enrollment demoStore7 1).result = .ok () ∧
    (Service.delete_enrollment demoStore7 1).store.grades =
        demoStore7.grades := by
  have h := C9_delete_no_cascade demoStore7 1 1 ⟨1, "Ann", "ann@x.com"⟩
    (by decide) ⟨1, 1, 1, 0⟩ (by decide)
  exact ⟨by decide, by decide, h.1, h.2.2.1, h.2.2.2.2.2.1, h.2.2.2.2.2.2.2.1⟩

/-- Helper: the exact outcome of a successful enrollment create (all
three validation checks pass). -/
theorem create_enrollment_ok (db : Store) (e : EnrollmentCreate)
    (st : Student) (hS : Repo.get_student_by_id db e.student_id = some st)
    (c : Course) (hC : Repo.get_course_by_id db e.course_id = some c)
    (hdup : Repo.get_enrollment_by_student_and_course db
        e.student_id e.course_id = none) :
    Service.create_enrollment db e =
      ⟨.ok ⟨db.nextEnrollmentId, e.student_id, e.course_id, e.enrollment_date⟩,
       { db with
           enrollments := db.enrollments ++
             [⟨db.nextEnrollmentId, e.student_id, e.course_id,
               e.enrollment_date⟩],
           nextEnrollmentId := db.nextEnrollmentId + 1 },
       [.readStudentById e.student_id, .readCourseById e.course_id,
        .readEnrollmentByPair e.student_id e.course_id, .write]⟩ := by
  unfold Service.create_enrollment Repo.create_enrollment
  rw [hS, hC, hdup]

/-- C5: (student, course) pairs are unique — with student S and courses
C and C2 ≠ C existing and neither pair enrolled yet, the first create
for (S, C) succeeds, a second create for (S, C) fails with DuplicateKey
leaving the store exactly as after the first create, and a subsequent
create for (S, C2) succeeds. -/
theorem C5_enrollment_pair_unique (db : Store) (S C C2 : Nat) (d d2 d3 : Int)
    (st : Student) (hS : Repo.get_student_by_id db S = some st)
    (c : Course) (hC : Repo.get_course_by_id db C = some c)
    (c2 : Course) (hC2 : Repo.get_course_by_id db C2 = some c2)
    (hne : C2 ≠ C)
    (hdup : Repo.get_enrollment_by_student_and_course db S C = none)
    (hdup2 : Repo.get_enrollment_by_student_and_course db S C2 = none) :
    (Service.create_enrollment db ⟨S, C, d⟩).result =
        .ok ⟨db.nextEnrollmentId, S, C, d⟩ ∧
    (Service.create_enrollment
        (Service.create_enrollment db ⟨S, C, d⟩).store ⟨S, C, d2⟩).result =
        .error (.DuplicateKey "Student is already enrolled in this course") ∧
    (Service.create_enrollment
        (Service.create_enrollment db ⟨S, C, d⟩).store ⟨S, C, d2⟩).store =
        (Service.create_enrollment db ⟨S, C, d⟩).store ∧
    (Service.create_enrollment
        (Service.create_enrollment db ⟨S, C, d⟩).store ⟨S, C2, d3⟩).result =
        .ok ⟨db.nextEnrollmentId + 1, S, C2, d3⟩ := by
  rw [create_enrollment_ok db ⟨S, C, d⟩ st hS c hC hdup]
  refine ⟨rfl, ?_⟩
  have hS' :
      Repo.get_student_by_id
        { db with
            enrollments := db.enrollments ++ [⟨db.nextEnrollmentId, S, C, d⟩],
            nextEnrollmentId := db.nextEnrollmentId + 1 } S = some st := hS
  have hC' :
      Repo.get_course_by_id
        { db with
            enrollments := db.enrollments ++ [⟨db.nextEnrollmentId, S, C, d⟩],
            nextEnrollmentId := db.nextEnrollmentId + 1 } C = some c := hC
  have hC2' :
      Repo.get_course_by_id
        { db with
            enrollments := db.enrollments ++ [⟨db.nextEnrollmentId, S, C, d⟩],
            nextEnrollmentId := db.nextEnrollmentId + 1 } C2 = some c2 := hC2
  have hpair :
      Repo.get_enrollment_by_student_and_course
        { db with
            enrollments := db.enrollments ++ [⟨db.nextEnrollmentId, S, C, d⟩],
            nextEnrollmentId := db.nextEnrollmentId + 1 } S C =
        some ⟨db.nextEnrollmentId, S, C, d⟩ := by
    unfold Repo.get_enrollment_by_student_and_course at hdup ⊢
    simp [List.find?_append, hdup]
  have hpair2 :
      Repo.get_enrollment_by_student_and_course
        { db with
            enrollments := db.enrollments ++ [⟨db.nextEnrollmentId, S, C, d⟩],
            nextEnrollmentId := db.nextEnrollmentId + 1 } S C2 = none := by
    unfold Repo.get_enrollment_by_student_and_course at hdup2 ⊢
    simp [List.find?_append, hdup2, Ne.symm hne]
  refine ⟨?_, ?_, ?_⟩
  · unfold Service.create_enrollment
    rw [hS', hC', hpair]
  · unfold Service.create_enrollment
    rw [hS', hC', hpair]
  · rw [create_enrollment_ok _ ⟨S, C2, d3⟩ st hS' c2 hC2' hpair2]

/-- Witness for C5 on the demo store: student 2 exists, courses 1 and
2 exist, student 2 is not yet enrolled in either; the (2, 2) create
succeeds, repeats fail with DuplicateKey without writing, and (2, 1)
still succeeds afterwards. -/
theorem C5_enrollment_pair_unique_witness :
    (Service.create_enrollment demoStore6 ⟨2, 2, 5⟩).result =
        .ok ⟨demoStore6.nextEnrollmentId, 2, 2, 5⟩ ∧
    (Service.create_enrollment
        (Service.create_enrollment demoStore6 ⟨2, 2, 5⟩).store ⟨2, 2, 6⟩).result =
        .error (.DuplicateKey "Student is already enrolled in this course") ∧
    (Service.create_enrollment
        (Service.create_enrollment demoStore6 ⟨2, 2, 5⟩).store ⟨2, 2, 6⟩).store =
        (Service.create_enrollment demoStore6 ⟨2, 2, 5⟩).store ∧
    (Service.create_enrollment
        (Service.create_enrollment demoStore6 ⟨2, 2, 5⟩).store ⟨2, 1, 7⟩).result =
        .ok ⟨demoStore6.nextEnrollmentId + 1, 2, 1, 7⟩ :=
  C5_enrollment_pair_unique demoStore6 2 2 1 5 6 7
    ⟨2, "Bob", "bob@x.com"⟩ (by decide)
    ⟨2, "Data", "CS102", 4⟩ (by decide)
    ⟨1, "Algo", "CS101", 3⟩ (by decide)
    (by decide) (by decide) (by decide)

/-- C6: student update exempts self-collision on the email key — with
emails unique in the store, updating an existing student while keeping
its own current email succeeds, while updating it to an email owned by
a different existing student fails with DuplicateKey and writes
nothing; the course manager behaves symmetrically with the course code
as the key. -/
theorem C6_update_self_collision_exempt (db : Store)
    (student_id : Nat) (st : Student)
    (hs : Repo.get_student_by_id db student_id = some st)
    (hemails : emailsUnique db)
    (n1 n2 other_email : String) (u : Student)
    (hu : Repo.get_student_by_email db other_email = some u)
    (hu_ne : u.id ≠ student_id)
    (course_id : Nat) (co : Course)
    (hc : Repo.get_course_by_id db course_id = some co)
    (hcodes : codesUnique db)
    (m1 m2 other_code : String) (cr1 cr2 : Int) (v : Course)
    (hv : Repo.get_course_by_code db other_code = some v)
    (hv_ne : v.id ≠ course_id) :
    (Service.update_student db student_id ⟨n1, st.email⟩).result =
        .ok ⟨st.id, n1, st.email⟩ ∧
    (Service.update_student db student_id ⟨n2, other_email⟩).result =
        .error (.DuplicateKey "Email already registered") ∧
    (Service.update_student db student_id ⟨n2, other_email⟩).store = db ∧
    (Service.update_course db course_id ⟨m1, co.course_code, cr1⟩).result =
        .ok ⟨co.id, m1, co.course_code, cr1⟩ ∧
    (Service.update_course db course_id ⟨m2, other_code, cr2⟩).result =
        .error (.DuplicateKey "Course code already exists") ∧
    (Service.update_course db course_id ⟨m2, other_code, cr2⟩).store = db := by
  unfold Repo.get_student_by_id at hs
  unfold Repo.get_student_by_email at hu
  unfold Repo.get_course_by_id at hc
  unfold Repo.get_course_by_code at hv
  have hst_id : st.id = student_id := by
    have := List.find?_some hs
    simpa using this
  have hst_mem : st ∈ db.students := List.mem_of_find?_eq_some hs
  have hself : db.students.find? (fun s => s.email == st.email) = some st := by
    rcases hfind : db.students.find? (fun s => s.email == st.email) with _ | w
    · exact absurd (by simp : (st.email == st.email) = true)
        (List.find?_eq_none.mp hfind st hst_mem)
    · have hw_email : w.email = st.email := by
        simpa using List.find?_some hfind
      have hw : w = st :=
        hemails w (List.mem_of_find?_eq_some hfind) st hst_mem hw_email
      rw [hw] at hfind
      exact hfind
  have hco_id : co.id = course_id := by
    have := List.find?_some hc
    simpa using this
  have hco_mem : co ∈ db.courses := List.mem_of_find?_eq_some hc
  have hcself :
      db.courses.find? (fun s => s.course_code == co.course_code) = some co := by
    rcases hfind : db.courses.find? (fun s => s.course_code == co.course_code)
      with _ | w
    · exact absurd (by simp : (co.course_code == co.course_code) = true)
        (List.find?_eq_none.mp hfind co hco_mem)
    · have hw_code : w.course_code = co.course_code := by
        simpa using List.find?_some hfind
      have hw : w = co :=
        hcodes w (List.mem_of_find?_eq_some hfind) co hco_mem hw_code
      rw [hw] at hfind
      exact hfind
  refine ⟨?_, ?_, ?_, ?_, ?_, ?_⟩
  · unfold Service.update_student Repo.update_student
      Repo.get_student_by_id Repo.get_student_by_email
    simp [hs, hself, hst_id]
  · unfold Service.update_student Repo.get_student_by_id
      Repo.get_student_by_email
    simp [hs, hu, hu_ne]
  · unfold Service.update_student Repo.get_student_by_id
      Repo.get_student_by_email
    simp [hs, hu, hu_ne]
  · unfold Service.update_course Repo.update_course
      Repo.get_course_by_id Repo.get_course_by_code
    simp [hc, hcself, hco_id]
  · unfold Service.update_course Repo.get_course_by_id
      Repo.get_course_by_code
    simp [hc, hv, hv_ne]
  · unfold Service.update_course Repo.get_course_by_id
      Repo.get_course_by_code
    simp [hc, hv, hv_ne]

/-- Witness for C6 on the demo store: updating student 1 to its own
email "ann@x.com" succeeds, updating it to student 2's "bob@x.com"
fails with DuplicateKey; symmetrically for course 1 with codes "CS101"
and "CS102". -/
theorem C6_update_self_collision_exempt_witness :
    (Service.update_student demoStore7 1 ⟨"Anne", "ann@x.com"⟩).result =
        .ok ⟨1, "Anne", "ann@x.com"⟩ ∧
    (Service.update_student demoStore7 1 ⟨"Anne", "bob@x.com"⟩).result =
        .error (.DuplicateKey "Email already registered") ∧
    (Service.update_student demoStore7 1 ⟨"Anne", "bob@x.com"⟩).store =
        demoStore7 ∧
    (Service.update_course demoStore7 1 ⟨"Algo2", "CS101", 5⟩).result =
        .ok ⟨1, "Algo2", "CS101", 5⟩ ∧
    (Service.update_course demoStore7 1 ⟨"Algo2", "CS102", 5⟩).result =
        .error (.DuplicateKey "Course code already exists") ∧
    (Service.update_course demoStore7 1 ⟨"Algo2", "CS102", 5⟩).store =
        demoStore7 :=
  C6_update_self_collision_exempt demoStore7
    1 ⟨1, "Ann", "ann@x.com"⟩ (by decide) (by decide)
    "Anne" "Anne" "bob@x.com" ⟨2, "Bob", "bob@x.com"⟩ (by decide) (by decide)
    1 ⟨1, "Algo", "CS101", 3⟩ (by decide) (by decide)
    "Algo2" "Algo2" "CS102" 5 5 ⟨2, "Data", "CS102", 4⟩ (by decide) (by decide)

/-- Helper: mapping over an Except keeps the error. -/
theorem except_map_error {α β : Type} {f : α → β} {r : Except ApiError α}
    {e : ApiError} (h : r.map f = .error e) : r = .error e := by
  cases r <;> simp_all [Except.map]

/-- Helper: a failed student create leaves the store unchanged. -/
theorem create_student_error_frame (db : Store) (s : StudentCreate)
    (err : ApiError) (h : (Service.create_student db s).result = .error err) :
    (Service.create_student db s).store = db := by
  unfold Service.create_student at h ⊢
  split at h <;> simp_all [Repo.create_student]

/-- Helper: a failed student update leaves the store unchanged. -/
theorem update_student_error_frame (db : Store) (student_id : Nat)
    (s : StudentCreate) (err : ApiError)
    (h : (Service.update_student db student_id s).result = .error err) :
    (Service.update_student db student_id s).store = db := by
  unfold Service.update_student Repo.get_student_by_id Repo.update_student
    at h ⊢
  repeat' split at h
  all_goals simp_all

/-- Helper: a failed student delete leaves the store unchanged. -/
theorem delete_student_error_frame (db : Store) (student_id : Nat)
    (err : ApiError)
    (h : (Service.delete_student db student_id).result = .error err) :
    (Service.delete_student db student_id).store = db := by
  unfold Service.delete_student Repo.get_student_by_id Repo.delete_student
    at h ⊢
  repeat' split at h
  all_goals simp_all

/-- Helper: a failed course create leaves the store unchanged. -/
theorem create_course_error_frame (db : Store) (c : CourseCreate)
    (err : ApiError) (h : (Service.create_course db c).result = .error err) :
    (Service.create_course db c).store = db := by
  unfold Service.create_course at h ⊢
  split at h <;> simp_all [Repo.create_course]

/-- Helper: a failed course update leaves the store unchanged. -/
theorem update_course_error_frame (db : Store) (course_id : Nat)
    (c : CourseCreate) (err : ApiError)
    (h : (Service.update_course db course_id c).result = .error err) :
    (Service.update_course db course_id c).store = db := by
  unfold Service.update_course Repo.get_course_by_id Repo.update_course at h ⊢
  repeat' split at h
  all_goals simp_all

/-- Helper: a failed course delete leaves the store unchanged. -/
theorem delete_course_error_frame (db : Store) (course_id : Nat)
    (err : ApiError)
    (h : (Service.delete_course db course_id).result = .error err) :
    (Service.delete_course db course_id).store = db := by
  unfold Service.delete_course Repo.get_course_by_id Repo.delete_course at h ⊢
  repeat' split at h
  all_goals simp_all

/-- Helper: a failed enrollment create leaves the store unchanged. -/
theorem create_enrollment_error_frame (db : Store) (e : EnrollmentCreate)
    (err : ApiError)
    (h : (Service.create_enrollment db e).result = .error err) :
    (Service.create_enrollment db e).store = db := by
  unfold Service.create_enrollment at h ⊢
  repeat' split at h
  all_goals simp_all [Repo.create_enrollment]

/-- Helper: a failed enrollment delete leaves the store unchanged. -/
theorem delete_enrollment_error_frame (db : Store) (enrollment_id : Nat)
    (err : ApiError)
    (h : (Service.delete_enrollment db enrollment_id).result = .error err) :
    (Service.delete_enrollment db enrollment_id).store = db := by
  unfold Service.delete_enrollment Repo.get_enrollment_by_id
    Repo.delete_enrollment at h ⊢
  repeat' split at h
  all_goals simp_all

/-- Helper: a failed grade create leaves the store unchanged. -/
theorem create_grade_error_frame (db : Store) (g : GradeCreate)
    (err : ApiError) (h : (Service.create_grade db g).result = .error err) :
    (Service.create_grade db g).store = db := by
  unfold Service.create_grade at h ⊢
  repeat' split at h
  all_goals simp_all [Repo.create_grade]
  all_goals split <;> rfl

/-- Helper: a failed grade update leaves the store unchanged. -/
theorem update_grade_error_frame (db : Store) (grade_id : Nat) (marks : ℚ)
    (err : ApiError)
    (h : (Service.update_grade db grade_id marks).result = .error err) :
    (Service.update_grade db grade_id marks).store = db := by
  unfold Service.update_grade Repo.get_grade_by_id Repo.update_grade at h ⊢
  repeat' split at h
  all_goals simp_all
  all_goals split <;> rfl

/-- Helper: a failed grade delete leaves the store unchanged. -/
theorem delete_grade_error_frame (db : Store) (grade_id : Nat)
    (err : ApiError)
    (h : (Service.delete_grade db grade_id).result = .error err) :
    (Service.delete_grade db grade_id).store = db := by
  unfold Service.delete_grade Repo.get_grade_by_id Repo.delete_grade at h ⊢
  repeat' split at h
  all_goals simp_all

/-- C8: every operation is atomic on validation failure — whenever any
API-level mutating operation raises an error (NotFound, DuplicateKey,
InvalidRange, or StorageFailure), the entire store is left unchanged:
no partial write survives, so e.g. a create with a duplicate email
leaves the original student untouched and retrievable. -/
theorem C8_atomic_on_failure (op : Op) (db : Store) (err : ApiError)
    (h : (op.run db).1 = .error err) : (op.run db).2 = db := by
  cases op <;> simp only [Op.run] at h ⊢
  case createStudent s =>
    exact create_student_error_frame db s err (except_map_error h)
  case updateStudent i s =>
    exact update_student_error_frame db i s err (except_map_error h)
  case deleteStudent i =>
    exact delete_student_error_frame db i err (except_map_error h)
  case createCourse c =>
    exact create_course_error_frame db c err (except_map_error h)
  case updateCourse i c =>
    exact update_course_error_frame db i c err (except_map_error h)
  case deleteCourse i =>
    exact delete_course_error_frame db i err (except_map_error h)
  case createEnrollment e =>
    exact create_enrollment_error_frame db e err (except_map_error h)
  case deleteEnrollment i =>
    exact delete_enrollment_error_frame db i err (except_map_error h)
  case createGrade g =>
    exact create_grade_error_frame db g err (except_map_error h)
  case updateGrade i m =>
    exact update_grade_error_frame db i m err (except_map_error h)
  case deleteGrade i =>
    exact delete_grade_error_frame db i err (except_map_error h)

/-- Witness for C8: creating a second student with Ann's email on the
demo store fails with DuplicateKey and leaves the whole store (hence
the original student) unchanged. -/
theorem C8_atomic_on_failure_witness :
    ((Op.createStudent ⟨"Eve", "ann@x.com"⟩).run demoStore7).1 =
        .error (.DuplicateKey "Email already registered") ∧
    ((Op.createStudent ⟨"Eve", "ann@x.com"⟩).run demoStore7).2 = demoStore7 :=
  ⟨rfl,
   C8_atomic_on_failure (Op.createStudent ⟨"Eve", "ann@x.com"⟩) demoStore7
     (.DuplicateKey "Email already registered") rfl⟩

/-- Helper: student create never touches the grades table. -/
theorem create_student_grades_frame (db : Store) (s : StudentCreate) :
    (Service.create_student db s).store.grades = db.grades := by
  unfold Service.create_student
  split <;> simp [Repo.create_student]

/-- Helper: student update never touches the grades table. -/
theorem update_student_grades_frame (db : Store) (student_id : Nat)
    (s : StudentCreate) :
    (Service.update_student db student_id s).store.grades = db.grades := by
  unfold Service.update_student Repo.update_student Repo.get_student_by_id
  repeat' split
  all_goals simp_all
  all_goals
    (rename_i heq
     rcases heq with ⟨-, rfl⟩
     rfl)

/-- Helper: student delete never touches the grades table. -/
theorem delete_student_grades_frame (db : Store) (student_id : Nat) :
    (Service.delete_student db student_id).store.grades = db.grades := by
  unfold Service.delete_student Repo.delete_student Repo.get_student_by_id
  split
  · rfl
  · next _r heq =>
      rw [heq]
      rfl

/-- Helper: course create never touches the grades table. -/
theorem create_course_grades_frame (db : Store) (c : CourseCreate) :
    (Service.create_course db c).store.grades = db.grades := by
  unfold Service.create_course
  split <;> simp [Repo.create_course]

/-- Helper: course update never touches the grades table. -/
theorem update_course_grades_frame (db : Store) (course_id : Nat)
    (c : CourseCreate) :
    (Service.update_course db course_id c).store.grades = db.grades := by
  unfold Service.update_course Repo.update_course Repo.get_course_by_id
  repeat' split
  all_goals simp_all
  all_goals
    (rename_i heq
     rcases heq with ⟨-, rfl⟩
     rfl)

/-- Helper: course delete never touches the grades table. -/
theorem delete_course_grades_frame (db : Store) (course_id : Nat) :
    (Service.delete_course db course_id).store.grades = db.grades := by
  unfold Service.delete_course Repo.delete_course Repo.get_course_by_id
  split
  · rfl
  · next _r heq =>
      rw [heq]
      rfl

/-- Helper: enrollment create never touches the grades table. -/
theorem create_enrollment_grades_frame (db : Store) (e : EnrollmentCreate) :
    (Service.create_enrollment db e).store.grades = db.grades := by
  unfold Service.create_enrollment Repo.create_enrollment
  repeat' split
  all_goals simp_all
  all_goals
    (rename_i heq
     rcases heq with ⟨-, rfl⟩
     rfl)

/-- Helper: enrollment delete never touches the grades table. -/
theorem delete_enrollment_grades_frame (db : Store) (enrollment_id : Nat) :
    (Service.delete_enrollment db enrollment_id).store.grades = db.grades := by
  unfold Service.delete_enrollment Repo.delete_enrollment
    Repo.get_enrollment_by_id
  split
  · rfl
  · next _r heq =>
      rw [heq]
      rfl

/-- Helper: grade create preserves the derived-field invariant — the
stored letter is computed from the submitted marks, overwriting any
caller-supplied value. -/
theorem create_grade_preserves_consistency (db : Store) (g : GradeCreate)
    (hdb : gradesConsistent db) :
    gradesConsistent (Service.create_grade db g).store := by
  unfold Service.create_grade
  split
  · exact hdb
  · split
    · exact hdb
    · split
      · exact hdb
      · intro gr hgr
        simp only [Repo.create_grade, List.mem_append] at hgr
        rcases hgr with h | h
        · exact hdb gr h
        · simp only [List.mem_singleton] at h
          subst h
          rfl

/-- Helper: grade update preserves the derived-field invariant — the
letter is recomputed from the new marks. -/
theorem update_grade_preserves_consistency (db : Store) (grade_id : Nat)
    (marks : ℚ) (hdb : gradesConsistent db) :
    gradesConsistent (Service.update_grade db grade_id marks).store := by
  unfold Service.update_grade Repo.update_grade Repo.get_grade_by_id
  split
  · exact hdb
  · split
    · exact hdb
    · next gr0 heq =>
        rw [heq]
        dsimp only
        intro gr hgr
        simp only [List.mem_map] at hgr
        rcases hgr with ⟨a, ha, rfl⟩
        split
        · rfl
        · exact hdb a ha

/-- Helper: grade delete preserves the derived-field invariant. -/
theorem delete_grade_preserves_consistency (db : Store) (grade_id : Nat)
    (hdb : gradesConsistent db) :
    gradesConsistent (Service.delete_grade db grade_id).store := by
  unfold Service.delete_grade Repo.delete_grade Repo.get_grade_by_id
  split
  · exact hdb
  · next gr0 heq =>
      rw [heq]
      dsimp only
      intro gr hgr
      exact hdb gr ((List.eraseP_sublist _).subset hgr)

/-- C3: the derived-field invariant holds in every reachable store —
grade create computes the letter from the submitted marks (overwriting
any caller-supplied final_grade) and update recomputes it, so each
stored grade's letter equals the derivation applied to its stored
marks. -/
theorem C3_reachable_grades_consistent (db : Store) (h : Reachable db) :
    gradesConsistent db := by
  induction h with
  | init =>
      intro g hg
      simp [Store.empty] at hg
  | step op db hdb ih =>
      cases op with
      | createStudent s =>
          simp only [Op.run]
          intro g hg
          rw [create_student_grades_frame] at hg
          exact ih g hg
      | updateStudent i s =>
          simp only [Op.run]
          intro g hg
          rw [update_student_grades_frame] at hg
          exact ih g hg
      | deleteStudent i =>
          simp only [Op.run]
          intro g hg
          rw [delete_student_grades_frame] at hg
          exact ih g hg
      | createCourse c =>
          simp only [Op.run]
          intro g hg
          rw [create_course_grades_frame] at hg
          exact ih g hg
      | updateCourse i c =>
          simp only [Op.run]
          intro g hg
          rw [update_course_grades_frame] at hg
          exact ih g hg
      | deleteCourse i =>
          simp only [Op.run]
          intro g hg
          rw [delete_course_grades_frame] at hg
          exact ih g hg
      | createEnrollment e =>
          simp only [Op.run]
          intro g hg
          rw [create_enrollment_grades_frame] at hg
          exact ih g hg
      | deleteEnrollment i =>
          simp only [Op.run]
          intro g hg
          rw [delete_enrollment_grades_frame] at hg
          exact ih g hg
      | createGrade g =>
          simp only [Op.run]
          exact create_grade_preserves_consistency db g ih
      | updateGrade i m =>
          simp only [Op.run]
          exact update_grade_preserves_consistency db i m ih
      | deleteGrade i =>
          simp only [Op.run]
          exact delete_grade_preserves_consistency db i ih

/-- Witness for C3: the demo store is reachable (built by seven API
operations, including a grade create that was handed final_grade none)
and satisfies the invariant. -/
theorem C3_reachable_grades_consistent_witness :
    Reachable demoStore7 ∧ gradesConsistent demoStore7 := by
  have h1 : Reachable demoStore1 :=
    Reachable.step (Op.createStudent ⟨"Ann", "ann@x.com"⟩) Store.empty
      Reachable.init
  have h2 : Reachable demoStore2 :=
    Reachable.step (Op.createCourse ⟨"Algo", "CS101", 3⟩) demoStore1 h1
  have h3 : Reachable demoStore3 :=
    Reachable.step (Op.createEnrollment ⟨1, 1, 0⟩) demoStore2 h2
  have h4 : Reachable demoStore4 :=
    Reachable.step (Op.createGrade ⟨1, 85, none⟩) demoStore3 h3
  have h5 : Reachable demoStore5 :=
    Reachable.step (Op.createStudent ⟨"Bob", "bob@x.com"⟩) demoStore4 h4
  have h6 : Reachable demoStore6 :=
    Reachable.step (Op.createCourse ⟨"Data", "CS102", 4⟩) demoStore5 h5
  have h7 : Reachable demoStore7 :=
    Reachable.step (Op.createEnrollment ⟨2, 1, 0⟩) demoStore6 h6
  exact ⟨h7, C3_reachable_grades_consistent demoStore7 h7⟩

end CourseEnrollment
